import Mathlib

/-!
Verification of the docker pipeline engine (`engine/engine_impl.go`).

The engine drives one CI pipeline against a docker client: `Setup` creates
the ephemeral volumes and the pipeline network, `Run` drives one step through
create → start → tail → wait, and `Destroy` tears everything down.

We shallowly embed the engine as trace-producing functions over an oracle
`APIClient`: every docker call the engine issues is recorded in a `Call`
trace, and the client's responses are arbitrary functions supplied by the
environment, so theorems quantify over every possible behaviour of the
docker daemon.
-/

namespace Engine

/-! ## Data model

The engine's data types (`Spec`, `Volume`, `Step`, `State`, …) are declared in
a sibling file of the repository that is not among the provided sources; the
fields below are reconstructed from their uses in `engine_impl.go`
(`vol.EmptyDir.ID/Medium/Labels`, `spec.Platform.OS`, `spec.Network.ID/Labels`,
`step.ID/Image/Auth/Pull`, `info.State.ExitCode/OOMKilled/Running`) and from
the specification's data-model section. -/

/-- Label sets are carried verbatim; we model them as association lists. -/
abbrev Labels := List (String × String)

/-- Modelled from the spec: an `EmptyDir` volume carries an identifier, a
label set, and a medium (`"memory"` or persisted). Field uses match
`engine_impl.go` (`vol.EmptyDir.ID`, `.Medium`, `.Labels`). -/
structure EmptyDirT where
  ID : String
  Medium : String
  Labels : Labels
deriving DecidableEq, Repr

/-- Modelled from the spec: a Volume is either a named ephemeral volume
(`EmptyDir`) or another kind that the engine ignores (`EmptyDir == nil`). -/
structure Volume where
  EmptyDir : Option EmptyDirT
deriving DecidableEq, Repr

/-- Modelled from the spec: the pipeline network, an identifier and labels. -/
structure Network where
  ID : String
  Labels : Labels
deriving DecidableEq, Repr

/-- Modelled from the spec: registry credentials attached to a step. -/
structure Auth where
  Username : String
  Password : String
deriving DecidableEq, Repr

/-- Modelled from the spec: the image pull policy of a step, one of
`Default`, `Always`, `Never`. -/
inductive PullPolicy where
  | PullDefault
  | PullAlways
  | PullNever
deriving DecidableEq, Repr

/-- Modelled from the spec: the target platform (only the OS is consulted
by the engine, at the network-driver decision). -/
structure Platform where
  OS : String
  Arch : String
deriving DecidableEq, Repr

/-- Modelled from the spec: one pipeline step. The identifier doubles as the
container name. -/
structure Step where
  ID : String
  Image : String
  Auth : Option Auth
  Pull : PullPolicy
deriving DecidableEq, Repr

/-- Modelled from the spec: one pipeline execution. -/
structure Spec where
  Platform : Platform
  Volumes : List Volume
  Network : Network
  Steps : List Step
deriving DecidableEq, Repr

/-- The terminal state of a step (`engine_impl.go` lines 237-241). -/
structure State where
  Exited : Bool
  ExitCode : Int
  OOMKilled : Bool
deriving DecidableEq, Repr

/-! ## Docker client surface -/

/-- Errors returned by the docker client. The engine inspects only whether an
error is the image-not-found error (`docker.IsErrImageNotFound`); everything
else is carried along verbatim, which we model with an error code. -/
inductive DockerErr where
  | imageNotFound
  | invalidReference
  | errCode (n : Nat)
deriving DecidableEq, Repr

/-- `docker.IsErrImageNotFound` from the go-docker client library: recognises
exactly the image-not-found error (and is false on a nil error). -/
def IsErrImageNotFound : Option DockerErr → Bool
  | some DockerErr.imageNotFound => true
  | _ => false

/-- `volume.VolumesCreateBody` as filled in by `Setup` (lines 46-50). -/
structure VolumesCreateBody where
  Name : String
  Driver : String
  Labels : Labels
deriving DecidableEq, Repr

/-- `types.NetworkCreate` as filled in by `Setup` (lines 62-65). -/
structure NetworkCreate where
  Driver : String
  Labels : Labels
deriving DecidableEq, Repr

/-- `types.ContainerRemoveOptions` as filled in by `Destroy` (lines 72-76). -/
structure ContainerRemoveOptions where
  Force : Bool
  RemoveLinks : Bool
  RemoveVolumes : Bool
deriving DecidableEq, Repr

/-- `types.ImagePullOptions`: only the registry-auth header is ever set
(lines 146-152). -/
structure ImagePullOptions where
  RegistryAuth : String := ""
deriving DecidableEq, Repr

/-- `types.ContainerLogsOptions` as filled in by `tail` (lines 247-253). -/
structure ContainerLogsOptions where
  Follow : Bool
  ShowStdout : Bool
  ShowStderr : Bool
  Details : Bool
  Timestamps : Bool
deriving DecidableEq, Repr

/-- The container state read back by `ContainerInspect` (lines 228-241). -/
structure InspectState where
  Running : Bool
  ExitCode : Int
  OOMKilled : Bool
deriving DecidableEq, Repr

/-- One docker call issued by the engine, as recorded in traces. Container
creation records the container name; the config objects passed alongside it
are pure translations of the Spec and Step (`toConfig` and friends), which
the specification places out of scope. -/
inductive Call where
  | volumeCreate (body : VolumesCreateBody)
  | networkCreate (id : String) (opts : NetworkCreate)
  | containerKill (id : String) (signal : String)
  | containerRemove (id : String) (opts : ContainerRemoveOptions)
  | volumeRemove (id : String) (force : Bool)
  | networkRemove (id : String)
  | imagePull (image : String) (opts : ImagePullOptions)
  | containerCreate (name : String)
  | containerStart (id : String)
  | containerLogs (id : String) (opts : ContainerLogsOptions)
  | containerWait (id : String)
  | containerInspect (id : String)
deriving DecidableEq, Repr

/-- The docker client as a response oracle. A `none`/`Except.ok` response is
success. `ImagePull` and `ContainerCreate` additionally take the number of
calls of that kind already made during the current `create`, so the oracle
can answer the first and the second attempt differently (the real client is
stateful: a pull changes what a later create sees). `ContainerWaitRace`
records which arm of the select in `wait` fires first; the engine ignores
the channel values either way. -/
structure APIClient where
  VolumeCreate : VolumesCreateBody → Option DockerErr
  NetworkCreate : String → NetworkCreate → Option DockerErr
  ContainerKill : String → String → Option DockerErr
  ContainerRemove : String → ContainerRemoveOptions → Option DockerErr
  VolumeRemove : String → Bool → Option DockerErr
  NetworkRemove : String → Option DockerErr
  ImagePull : Nat → String → ImagePullOptions → Option DockerErr
  ContainerCreate : Nat → String → Option DockerErr
  ContainerStart : String → Option DockerErr
  ContainerLogs : String → ContainerLogsOptions → Option DockerErr
  ContainerWaitRace : Bool
  ContainerInspect : String → Except DockerErr InspectState

/-! ## Image reference resolution -/

/-- Split a character list at every occurrence of the separator. -/
def splitChars (sep : Char) : List Char → List (List Char)
  | [] => [[]]
  | c :: cs =>
    let r := splitChars sep cs
    if c = sep then [] :: r
    else
      match r with
      | [] => [[c]]
      | seg :: segs => (c :: seg) :: segs

/-- Modelled from the spec: `parseImage` (the Image Reference Resolver) lives
in a repository file that is not among the provided sources. Per the spec it
parses an image string into domain, repository name and tag, reports whether
the effective tag is `"latest"` (an absent tag defaults to `"latest"`), and
fails only on a malformed reference. A trailing `:`-segment containing `/`
is a port of the registry host, not a tag. Returns
`(domain-and-name, tag, isLatest)`. -/
def parseImage (s : String) : Except DockerErr (String × String × Bool) :=
  if s = "" then Except.error DockerErr.invalidReference
  else
    let parts := splitChars ':' s.toList
    let tag :=
      match parts with
      | [] => "latest"
      | [_] => "latest"
      | _ =>
        let t := parts.getLastD []
        if t.contains '/' then "latest" else String.mk t
    Except.ok (s, tag, tag = "latest")

/-- `auth.Encode` from the drone runtime library (an external collaborator):
builds the registry-auth header from username and password. The exact
encoding is out of scope; the engine only threads the value through. -/
def authEncode (username password : String) : String :=
  "auth:" ++ username ++ ":" ++ password

/-- The pull options built at lines 146-152: the registry-auth header is set
exactly when the step carries credentials. -/
def pullOptsOf (step : Step) : ImagePullOptions :=
  match step.Auth with
  | some a => { RegistryAuth := authEncode a.Username a.Password }
  | none => {}

/-! ## Setup -/

/-- The volume-creation loop of `Setup` (lines 42-54): every volume with an
`EmptyDir` gets a backing volume named after its identifier with driver
`"local"` and its labels verbatim; the first failure aborts the loop. -/
def setupVolumes (cl : APIClient) : List Volume → List Call × Option DockerErr
  | [] => ([], none)
  | vol :: rest =>
    match vol.EmptyDir with
    | none => setupVolumes cl rest
    | some ed =>
      let body : VolumesCreateBody :=
        { Name := ed.ID, Driver := "local", Labels := ed.Labels }
      match cl.VolumeCreate body with
      | some e => ([Call.volumeCreate body], some e)
      | none =>
        let r := setupVolumes cl rest
        (Call.volumeCreate body :: r.1, r.2)

/-- `Setup` (lines 39-68): create the ephemeral volumes, then the pipeline
network, with driver `"nat"` on windows and `"bridge"` otherwise. -/
def Setup (cl : APIClient) (spec : Spec) : List Call × Option DockerErr :=
  match setupVolumes cl spec.Volumes with
  | (tr, some e) => (tr, some e)
  | (tr, none) =>
    let driver := if spec.Platform.OS = "windows" then "nat" else "bridge"
    let opts : NetworkCreate := { Driver := driver, Labels := spec.Network.Labels }
    (tr ++ [Call.networkCreate spec.Network.ID opts],
     cl.NetworkCreate spec.Network.ID opts)

/-! ## Destroy -/

/-- The volume-removal loop body of `Destroy` (lines 89-99): volumes without
an `EmptyDir` are skipped, memory-medium volumes are skipped (tmpfs volumes
have no volume entry), everything else is removed by identifier with the
force flag set. The client response is discarded. -/
def destroyVolumeCall (cl : APIClient) (vol : Volume) : Option Call :=
  match vol.EmptyDir with
  | none => none
  | some ed =>
    if ed.Medium = "memory" then none
    else
      let _ := cl.VolumeRemove ed.ID true
      some (Call.volumeRemove ed.ID true)

/-- `Destroy` (lines 71-108): kill every step container, remove every step
container, remove every non-memory `EmptyDir` volume, remove the network.
Every client response is discarded and `Destroy` always returns success
(the source never collects or returns any errors, lines 104-108). -/
def Destroy (cl : APIClient) (spec : Spec) : List Call × Option DockerErr :=
  let removeOpts : ContainerRemoveOptions :=
    { Force := true, RemoveLinks := false, RemoveVolumes := true }
  let kills := spec.Steps.map fun step =>
    let _ := cl.ContainerKill step.ID "9"
    Call.containerKill step.ID "9"
  let removes := spec.Steps.map fun step =>
    let _ := cl.ContainerRemove step.ID removeOpts
    Call.containerRemove step.ID removeOpts
  let volRemoves := spec.Volumes.filterMap (destroyVolumeCall cl)
  let _ := cl.NetworkRemove spec.Network.ID
  (kills ++ removes ++ volRemoves ++ [Call.networkRemove spec.Network.ID], none)

/-! ## create -/

/-- The proactive-pull condition of lines 156-157: pull before creating iff
the policy is `Always`, or the policy is `Default` and the tag is latest. -/
def pullBeforeCreate (step : Step) (latest : Bool) : Bool :=
  step.Pull = PullPolicy.PullAlways ∨
    (step.Pull = PullPolicy.PullDefault ∧ latest = true)

/-- The creation attempts of `create` (lines 168-196): a first
`ContainerCreate`; if it fails specifically with image-not-found and the
policy is not `Never`, one pull (whose failure is returned) and exactly one
re-creation, whose outcome is final. `pullIdx` counts the pulls already made
(1 when the proactive pull ran, else 0). -/
def createAttempts (cl : APIClient) (step : Step) (pullopts : ImagePullOptions)
    (pullIdx : Nat) (tr : List Call) : List Call × Option DockerErr :=
  let tr1 := tr ++ [Call.containerCreate step.ID]
  match cl.ContainerCreate 0 step.ID with
  | none => (tr1, none)
  | some e =>
    if IsErrImageNotFound (some e) ∧ step.Pull ≠ PullPolicy.PullNever then
      let tr2 := tr1 ++ [Call.imagePull step.Image pullopts]
      match cl.ImagePull pullIdx step.Image pullopts with
      | some pe => (tr2, some pe)
      | none =>
        let tr3 := tr2 ++ [Call.containerCreate step.ID]
        (tr3, cl.ContainerCreate 1 step.ID)
    else (tr1, some e)

/-- `create` (lines 136-212): resolve the image reference, build pull
options from the step credentials, optionally pull proactively (a failure
aborts), then run the creation attempts. The commented-out network-connect
block at lines 198-209 is dead code and is not modelled. -/
def create (cl : APIClient) (spec : Spec) (step : Step) :
    List Call × Option DockerErr :=
  match parseImage step.Image with
  | Except.error e => ([], some e)
  | Except.ok parsed =>
    let latest := parsed.2.2
    let pullopts := pullOptsOf step
    let _ := spec
    if pullBeforeCreate step latest then
      match cl.ImagePull 0 step.Image pullopts with
      | some pe => ([Call.imagePull step.Image pullopts], some pe)
      | none =>
        createAttempts cl step pullopts 1 [Call.imagePull step.Image pullopts]
    else
      createAttempts cl step pullopts 0 []

/-! ## start, tail, wait, Run -/

/-- `start` (lines 215-217): a single `ContainerStart`. -/
def start (cl : APIClient) (id : String) : List Call × Option DockerErr :=
  ([Call.containerStart id], cl.ContainerStart id)

/-- The log options built by `tail` (lines 247-253). -/
def tailLogsOptions : ContainerLogsOptions :=
  { Follow := true, ShowStdout := true, ShowStderr := true,
    Details := false, Timestamps := false }

/-- `tail` (lines 246-265): request the combined log stream; a failure to
obtain it is the result. The demultiplexing copy into the sink runs in a
detached goroutine whose effects and errors are invisible to the engine, so
it does not appear in the embedding. -/
def tail (cl : APIClient) (id : String) : List Call × Option DockerErr :=
  ([Call.containerLogs id tailLogsOptions], cl.ContainerLogs id tailLogsOptions)

/-- `wait` (lines 221-242): race the exited and error channels of
`ContainerWait` (both arms of the select fall through to the same
continuation, so the race outcome is read but never consulted), then inspect
the container once and build the `State` from that single inspection; the
still-running flag is deliberately accepted as-is (the TODO at lines
232-235). -/
def wait (cl : APIClient) (id : String) : List Call × Except DockerErr State :=
  let _ := cl.ContainerWaitRace
  let tr := [Call.containerWait id, Call.containerInspect id]
  match cl.ContainerInspect id with
  | Except.error e => (tr, Except.error e)
  | Except.ok info =>
    (tr, Except.ok { Exited := true, ExitCode := info.ExitCode,
                     OOMKilled := info.OOMKilled })

/-- `Run` (lines 112-130): create, start, tail, wait in strict sequence;
the first error short-circuits with no `State`. -/
def Run (cl : APIClient) (spec : Spec) (step : Step) :
    List Call × Except DockerErr State :=
  match create cl spec step with
  | (tr, some e) => (tr, Except.error e)
  | (tr, none) =>
    match start cl step.ID with
    | (tr2, some e) => (tr ++ tr2, Except.error e)
    | (tr2, none) =>
      match tail cl step.ID with
      | (tr3, some e) => (tr ++ tr2 ++ tr3, Except.error e)
      | (tr3, none) =>
        let r := wait cl step.ID
        (tr ++ tr2 ++ tr3 ++ r.1, r.2)

/-! ## Trace observations -/

/-- Is a call a container-creation attempt? -/
def isCreateCall : Call → Bool
  | Call.containerCreate _ => true
  | _ => false

/-- Is a call an image pull? -/
def isPullCall : Call → Bool
  | Call.imagePull _ _ => true
  | _ => false

/-- Is a call a volume creation? -/
def isVolumeCreateCall : Call → Bool
  | Call.volumeCreate _ => true
  | _ => false

/-- Is a call a volume removal? -/
def isVolumeRemoveCall : Call → Bool
  | Call.volumeRemove _ _ => true
  | _ => false

/-- Number of container-creation attempts in a trace. -/
def countCreates (tr : List Call) : Nat := tr.countP fun c => isCreateCall c

/-- The client response to a call issued by `Setup` (used to state that the
failing call is the last one issued). -/
def setupResponse (cl : APIClient) : Call → Option DockerErr
  | Call.volumeCreate body => cl.VolumeCreate body
  | Call.networkCreate id opts => cl.NetworkCreate id opts
  | _ => none

/-! ## Concrete fixtures for witnesses and counterexamples -/

/-- A client on which every docker call succeeds. -/
def okClient : APIClient where
  VolumeCreate := fun _ => none
  NetworkCreate := fun _ _ => none
  ContainerKill := fun _ _ => none
  ContainerRemove := fun _ _ => none
  VolumeRemove := fun _ _ => none
  NetworkRemove := fun _ => none
  ImagePull := fun _ _ _ => none
  ContainerCreate := fun _ _ => none
  ContainerStart := fun _ => none
  ContainerLogs := fun _ _ => none
  ContainerWaitRace := true
  ContainerInspect := fun _ =>
    Except.ok { Running := false, ExitCode := 0, OOMKilled := false }

/-- A disk-medium `EmptyDir` volume named `v1`. -/
def vol1 : Volume := { EmptyDir := some { ID := "v1", Medium := "disk", Labels := [] } }

/-- A memory-medium `EmptyDir` volume named `v2`. -/
def vol2 : Volume := { EmptyDir := some { ID := "v2", Medium := "memory", Labels := [] } }

/-- The two-volume Spec of the specification's scenario: one disk-medium and
one memory-medium `EmptyDir`. -/
def twoVolSpec : Spec :=
  { Platform := { OS := "linux", Arch := "amd64" },
    Volumes := [vol1, vol2],
    Network := { ID := "net1", Labels := [] },
    Steps := [] }

/-- A windows-platform Spec with no volumes. -/
def winSpec : Spec :=
  { Platform := { OS := "windows", Arch := "amd64" },
    Volumes := [],
    Network := { ID := "net1", Labels := [] },
    Steps := [] }

/-- A client whose container inspection reports the container still running,
with exit code 2 and the OOM flag set. -/
def runningInspectClient : APIClient :=
  { okClient with ContainerInspect := fun _ => Except.ok (InspectState.mk true 2 true) }

/-- A client on which network creation fails with error code 7. -/
def netFailClient : APIClient :=
  { okClient with NetworkCreate := fun _ _ => some (DockerErr.errCode 7) }

/-! ## Theorems -/

/-- C4: for every Spec and every combination of failures of the underlying
kill, container-remove, volume-remove, and network-remove calls — the client
is universally quantified, so every assignment of responses is covered —
`Destroy` returns no error to the caller. -/
theorem destroy_never_errors (cl : APIClient) (spec : Spec) :
    (Destroy cl spec).2 = none := rfl

/-- C6: whenever `wait` returns without an error, the returned `State` has
`Exited = true`, and its `ExitCode` and `OOMKilled` equal the values read
from the single container inspection performed after the exit/error race
resolves (the trace holds exactly one wait and one inspection), regardless
of the `Running` flag that inspection reports. -/
theorem wait_state_from_inspection (cl : APIClient) (id : String) (st : State)
    (h : (wait cl id).2 = Except.ok st) :
    st.Exited = true ∧
    (wait cl id).1 = [Call.containerWait id, Call.containerInspect id] ∧
    ∃ info, cl.ContainerInspect id = Except.ok info ∧
      st.ExitCode = info.ExitCode ∧ st.OOMKilled = info.OOMKilled := by
  rcases hi : cl.ContainerInspect id with e | info
  · simp [wait, hi] at h
  · simp [wait, hi] at h
    subst h
    refine ⟨rfl, ?_, info, rfl, rfl, rfl⟩
    simp [wait, hi]

/-- Witness for C6 at a client whose inspection still reports the container
as running: `wait` nevertheless returns `Exited = true` with that
inspection's exit code and OOM flag. -/
theorem wait_state_from_inspection_witness :
    ({ Exited := true, ExitCode := 2, OOMKilled := true } : State).Exited = true ∧
    (wait runningInspectClient "c1").1 =
      [Call.containerWait "c1", Call.containerInspect "c1"] ∧
    ∃ info, runningInspectClient.ContainerInspect "c1" = Except.ok info ∧
      ({ Exited := true, ExitCode := 2, OOMKilled := true } : State).ExitCode = info.ExitCode ∧
      ({ Exited := true, ExitCode := 2, OOMKilled := true } : State).OOMKilled = info.OOMKilled :=
  wait_state_from_inspection runningInspectClient "c1"
    { Exited := true, ExitCode := 2, OOMKilled := true }
    (by simp [wait, runningInspectClient, okClient])

/-- Every call recorded by the volume-creation loop of `Setup` is a
volume-creation call. -/
theorem setupVolumes_calls (cl : APIClient) (vols : List Volume) :
    ∀ c ∈ (setupVolumes cl vols).1, ∃ body, c = Call.volumeCreate body := by
  induction vols with
  | nil => simp [setupVolumes]
  | cons vol rest ih =>
    rcases hv : vol.EmptyDir with _ | ed
    · simpa [setupVolumes, hv] using ih
    · rcases hr : cl.VolumeCreate (VolumesCreateBody.mk ed.ID "local" ed.Labels)
        with _ | e
      · intro c hc
        rw [setupVolumes] at hc
        simp [hv, hr] at hc
        rcases hc with hc | hc
        · exact ⟨_, hc⟩
        · exact ih c hc
      · intro c hc
        rw [setupVolumes] at hc
        simp [hv, hr] at hc
        exact ⟨_, hc⟩

/-- C7: every network-creation request issued by `Setup` targets the Spec's
network identifier and labels, and uses driver `"nat"` exactly when the
Spec's platform OS is `"windows"`, and `"bridge"` in every other case. -/
theorem setup_network_driver (cl : APIClient) (spec : Spec) (id : String)
    (opts : NetworkCreate) (hmem : Call.networkCreate id opts ∈ (Setup cl spec).1) :
    id = spec.Network.ID ∧ opts.Labels = spec.Network.Labels ∧
    (opts.Driver = "nat" ↔ spec.Platform.OS = "windows") ∧
    (spec.Platform.OS ≠ "windows" → opts.Driver = "bridge") := by
  rcases hs : setupVolumes cl spec.Volumes with ⟨tr, res⟩
  have hvol : ∀ c ∈ tr, ∃ body, c = Call.volumeCreate body := by
    have := setupVolumes_calls cl spec.Volumes
    rw [hs] at this
    exact this
  rcases res with _ | e
  · rw [Setup, hs] at hmem
    simp at hmem
    rcases hmem with hmem | hmem
    · rcases hvol _ hmem with ⟨body, hbody⟩
      cases hbody
    · rcases hmem with ⟨hid, hopts⟩
      subst hid
      subst hopts
      refine ⟨rfl, rfl, ?_, ?_⟩
      · by_cases hw : spec.Platform.OS = "windows" <;> simp [hw]
      · intro hw
        simp [hw]
  · rw [Setup, hs] at hmem
    simp at hmem
    rcases hvol _ hmem with ⟨body, hbody⟩
    cases hbody

/-- Witness for C7 at a windows Spec: the network request produced by
`Setup` carries driver `"nat"`. -/
theorem setup_network_driver_witness :
    "net1" = winSpec.Network.ID ∧
    (NetworkCreate.mk "nat" []).Labels = winSpec.Network.Labels ∧
    ((NetworkCreate.mk "nat" []).Driver = "nat" ↔ winSpec.Platform.OS = "windows") ∧
    (winSpec.Platform.OS ≠ "windows" → (NetworkCreate.mk "nat" []).Driver = "bridge") :=
  setup_network_driver okClient winSpec "net1" (NetworkCreate.mk "nat" [])
    (by decide)

/-- C3 counterexample: on the scenario Spec with volumes
`EmptyDir{ID:"v1", Medium:"disk"}` and `EmptyDir{ID:"v2", Medium:"memory"}`
and a fully succeeding client, `Setup` does not issue exactly one
volume-creation request — the medium is not consulted at creation time, so
it issues two. -/
theorem setup_two_volumes_counterexample :
    ¬ ((Setup okClient twoVolSpec).1.countP (fun c => isVolumeCreateCall c) = 1) := by
  decide

/-- C3 amended: on the scenario Spec, `Setup` issues exactly two
volume-creation requests, for ids `v1` and `v2` in order (creation does not
check the medium; the memory-medium skip applies only at teardown). -/
theorem setup_two_volumes_amended :
    (Setup okClient twoVolSpec).1.filter (fun c => isVolumeCreateCall c) =
      [Call.volumeCreate { Name := "v1", Driver := "local", Labels := [] },
       Call.volumeCreate { Name := "v2", Driver := "local", Labels := [] }] := by
  decide

/-- Characterisation of one volume-removal decision in `Destroy`: a removal
call is produced exactly for an `EmptyDir` whose medium is not `"memory"`,
with the force flag set. -/
theorem destroyVolumeCall_eq_some (cl : APIClient) (vol : Volume) (id : String)
    (force : Bool) :
    destroyVolumeCall cl vol = some (Call.volumeRemove id force) ↔
      ∃ ed, vol.EmptyDir = some ed ∧ ed.Medium ≠ "memory" ∧ ed.ID = id ∧
        force = true := by
  rcases h : vol.EmptyDir with _ | ed
  · simp [destroyVolumeCall, h]
  · by_cases hm : ed.Medium = "memory"
    · simp [destroyVolumeCall, h, hm]
    · simp only [destroyVolumeCall, h, hm, if_false, Option.some.injEq,
        Call.volumeRemove.injEq]
      constructor
      · rintro ⟨rfl, rfl⟩
        exact ⟨ed, rfl, hm, rfl, rfl⟩
      · rintro ⟨ed2, hed2, hm2, rfl, rfl⟩
        obtain rfl : ed = ed2 := by simpa using hed2
        exact ⟨rfl, rfl⟩

/-- C5: `Destroy` issues a volume-removal request for an identifier if and
only if some volume of the Spec has an `EmptyDir` with that identifier whose
medium is not `"memory"`; memory-medium volumes never reach the removal
path, whatever else the Spec contains. -/
theorem destroy_volume_removal (cl : APIClient) (spec : Spec) (id : String) :
    Call.volumeRemove id true ∈ (Destroy cl spec).1 ↔
      ∃ vol ∈ spec.Volumes, ∃ ed, vol.EmptyDir = some ed ∧
        ed.Medium ≠ "memory" ∧ ed.ID = id := by
  simp [Destroy, List.mem_append, List.mem_map, List.mem_filterMap,
    destroyVolumeCall_eq_some]

/-- Equation for `setupVolumes` on a volume without an `EmptyDir`: it is
skipped. -/
theorem setupVolumes_cons_nil (cl : APIClient) (vol : Volume)
    (rest : List Volume) (hv : vol.EmptyDir = none) :
    setupVolumes cl (vol :: rest) = setupVolumes cl rest := by
  simp only [setupVolumes, hv]

/-- Equation for `setupVolumes` when the creation of the head volume
succeeds: the call is recorded and the loop continues. -/
theorem setupVolumes_cons_ok (cl : APIClient) (vol : Volume)
    (rest : List Volume) (ed : EmptyDirT) (hv : vol.EmptyDir = some ed)
    (hr : cl.VolumeCreate (VolumesCreateBody.mk ed.ID "local" ed.Labels) = none) :
    setupVolumes cl (vol :: rest) =
      (Call.volumeCreate (VolumesCreateBody.mk ed.ID "local" ed.Labels) ::
        (setupVolumes cl rest).1, (setupVolumes cl rest).2) := by
  simp only [setupVolumes, hv, hr]

/-- Equation for `setupVolumes` when the creation of the head volume fails:
the loop aborts with that error after recording the failing call. -/
theorem setupVolumes_cons_err (cl : APIClient) (vol : Volume)
    (rest : List Volume) (ed : EmptyDirT) (e : DockerErr)
    (hv : vol.EmptyDir = some ed)
    (hr : cl.VolumeCreate (VolumesCreateBody.mk ed.ID "local" ed.Labels) = some e) :
    setupVolumes cl (vol :: rest) =
      ([Call.volumeCreate (VolumesCreateBody.mk ed.ID "local" ed.Labels)], some e) := by
  simp only [setupVolumes, hv, hr]

/-- The volume loop of `Setup` is fail-fast: on success every recorded call
succeeded; on failure the failing call is the last one recorded and every
earlier call succeeded. -/
theorem setupVolumes_result (cl : APIClient) (vols : List Volume) :
    ((setupVolumes cl vols).2 = none →
       ∀ c ∈ (setupVolumes cl vols).1, setupResponse cl c = none) ∧
    (∀ e, (setupVolumes cl vols).2 = some e →
       ∃ tr0 c, (setupVolumes cl vols).1 = tr0 ++ [c] ∧
         setupResponse cl c = some e ∧
         ∀ c2 ∈ tr0, setupResponse cl c2 = none) := by
  induction vols with
  | nil => simp [setupVolumes]
  | cons vol rest ih =>
    rcases hv : vol.EmptyDir with _ | ed
    · rw [setupVolumes_cons_nil cl vol rest hv]
      exact ih
    · rcases hr : cl.VolumeCreate (VolumesCreateBody.mk ed.ID "local" ed.Labels)
        with _ | e
      · rw [setupVolumes_cons_ok cl vol rest ed hv hr]
        constructor
        · intro h2 c hc
          rcases List.mem_cons.1 hc with hc | hc
          · subst hc
            simpa [setupResponse] using hr
          · exact ih.1 h2 c hc
        · intro e he
          rcases ih.2 e he with ⟨tr0, c, htr, hcresp, hall⟩
          refine ⟨Call.volumeCreate (VolumesCreateBody.mk ed.ID "local" ed.Labels)
            :: tr0, c, by simp [htr], hcresp, ?_⟩
          intro c2 hc2
          rcases List.mem_cons.1 hc2 with hc2 | hc2
          · subst hc2
            simpa [setupResponse] using hr
          · exact hall c2 hc2
      · rw [setupVolumes_cons_err cl vol rest ed e hv hr]
        refine ⟨by simp, ?_⟩
        intro e2 he2
        obtain rfl : e = e2 := by simpa using he2
        exact ⟨[], Call.volumeCreate (VolumesCreateBody.mk ed.ID "local" ed.Labels),
          by simp, by simpa [setupResponse] using hr, by simp⟩

/-- C8: every call issued by `Setup` is a volume- or network-creation
request (nothing is rolled back), and when `Setup` returns an error, the
failing call is the last call issued — every call before it succeeded and no
further creation request follows it. -/
theorem setup_abort_on_failure (cl : APIClient) (spec : Spec) :
    (∀ c ∈ (Setup cl spec).1,
       (∃ body, c = Call.volumeCreate body) ∨
         ∃ nid opts, c = Call.networkCreate nid opts) ∧
    (∀ e, (Setup cl spec).2 = some e →
       ∃ tr0 c, (Setup cl spec).1 = tr0 ++ [c] ∧ setupResponse cl c = some e ∧
         ∀ c2 ∈ tr0, setupResponse cl c2 = none) := by
  rcases hs : setupVolumes cl spec.Volumes with ⟨tr, res⟩
  have hcalls := setupVolumes_calls cl spec.Volumes
  have hres := setupVolumes_result cl spec.Volumes
  rw [hs] at hcalls hres
  rcases res with _ | e
  · constructor
    · intro c hc
      simp only [Setup, hs] at hc
      rcases List.mem_append.1 hc with hc | hc
      · exact Or.inl (hcalls c hc)
      · obtain rfl : c = _ := List.mem_singleton.1 hc
        exact Or.inr ⟨_, _, rfl⟩
    · intro e he
      simp only [Setup, hs] at he ⊢
      refine ⟨tr, _, rfl, by simpa [setupResponse] using he, ?_⟩
      intro c2 hc2
      exact hres.1 rfl c2 hc2
  · constructor
    · intro c hc
      simp only [Setup, hs] at hc
      exact Or.inl (hcalls c hc)
    · intro e2 he2
      simp only [Setup, hs] at he2 ⊢
      obtain rfl : e = e2 := by simpa using he2
      exact hres.2 e rfl

/-- Witness for C8: with a client whose network creation fails with error
code 7, `Setup` on the two-volume Spec surfaces exactly that error from its
last issued call, all earlier calls having succeeded. -/
theorem setup_abort_on_failure_witness :
    ∃ tr0 c, (Setup netFailClient twoVolSpec).1 = tr0 ++ [c] ∧
      setupResponse netFailClient c = some (DockerErr.errCode 7) ∧
      ∀ c2 ∈ tr0, setupResponse netFailClient c2 = none :=
  (setup_abort_on_failure netFailClient twoVolSpec).2 (DockerErr.errCode 7)
    (by decide)

/-- Skipping a volume without an `EmptyDir` leaves the volume loop of
`Setup` unchanged, wherever the volume sits in the list. -/
theorem setupVolumes_erase_nil (cl : APIClient) (pre post : List Volume)
    (v : Volume) (hv : v.EmptyDir = none) :
    setupVolumes cl (pre ++ v :: post) = setupVolumes cl (pre ++ post) := by
  induction pre with
  | nil => simpa using setupVolumes_cons_nil cl v post hv
  | cons w pre ih =>
    rcases hw : w.EmptyDir with _ | ed
    · rw [List.cons_append, List.cons_append,
        setupVolumes_cons_nil cl w _ hw, setupVolumes_cons_nil cl w _ hw]
      exact ih
    · rcases hr : cl.VolumeCreate (VolumesCreateBody.mk ed.ID "local" ed.Labels)
        with _ | e
      · rw [List.cons_append, List.cons_append,
          setupVolumes_cons_ok cl w _ ed hw hr, setupVolumes_cons_ok cl w _ ed hw hr,
          ih]
      · rw [List.cons_append, List.cons_append,
          setupVolumes_cons_err cl w _ ed e hw hr,
          setupVolumes_cons_err cl w _ ed e hw hr]

/-- C10: a Volume whose `EmptyDir` is absent generates no request at all:
removing it from the Spec changes neither the calls nor the result of
`Setup`, and neither the calls nor the result of `Destroy`, whatever the
other volumes are. -/
theorem nil_emptydir_no_requests (cl : APIClient) (spec : Spec)
    (pre post : List Volume) (v : Volume) (hv : v.EmptyDir = none) :
    Setup cl { spec with Volumes := pre ++ v :: post } =
      Setup cl { spec with Volumes := pre ++ post } ∧
    Destroy cl { spec with Volumes := pre ++ v :: post } =
      Destroy cl { spec with Volumes := pre ++ post } := by
  have hd : destroyVolumeCall cl v = none := by simp [destroyVolumeCall, hv]
  constructor
  · simp only [Setup]
    rw [setupVolumes_erase_nil cl pre post v hv]
  · simp [Destroy, List.filterMap_append, List.filterMap_cons, hd]

/-- Witness for C10: dropping a no-`EmptyDir` volume sitting between `v1`
and the end of the two-volume Spec changes nothing in `Setup` or
`Destroy`. -/
theorem nil_emptydir_no_requests_witness :
    Setup okClient { twoVolSpec with Volumes := [vol1] ++ Volume.mk none :: [vol2] } =
      Setup okClient { twoVolSpec with Volumes := [vol1] ++ [vol2] } ∧
    Destroy okClient { twoVolSpec with Volumes := [vol1] ++ Volume.mk none :: [vol2] } =
      Destroy okClient { twoVolSpec with Volumes := [vol1] ++ [vol2] } :=
  nil_emptydir_no_requests okClient twoVolSpec [vol1] [vol2] (Volume.mk none) rfl

/-- The proactive-pull condition holds exactly when the policy is `Always`,
or the policy is `Default` and the tag is latest. -/
theorem pullBeforeCreate_iff (step : Step) (latest : Bool) :
    pullBeforeCreate step latest = true ↔
      (step.Pull = PullPolicy.PullAlways ∨
        (step.Pull = PullPolicy.PullDefault ∧ latest = true)) := by
  simp [pullBeforeCreate]

/-- Equation for `createAttempts` when the first creation succeeds. -/
theorem createAttempts_ok (cl : APIClient) (step : Step)
    (pullopts : ImagePullOptions) (pullIdx : Nat) (tr : List Call)
    (h0 : cl.ContainerCreate 0 step.ID = none) :
    createAttempts cl step pullopts pullIdx tr =
      (tr ++ [Call.containerCreate step.ID], none) := by
  simp only [createAttempts, h0]

/-- Equation for `createAttempts` when the first creation fails other than
with image-not-found, or the policy is `Never`: the error is final. -/
theorem createAttempts_fail_final (cl : APIClient) (step : Step)
    (pullopts : ImagePullOptions) (pullIdx : Nat) (tr : List Call)
    (e : DockerErr) (h0 : cl.ContainerCreate 0 step.ID = some e)
    (hnr : ¬(IsErrImageNotFound (some e) = true ∧
      step.Pull ≠ PullPolicy.PullNever)) :
    createAttempts cl step pullopts pullIdx tr =
      (tr ++ [Call.containerCreate step.ID], some e) := by
  simp only [createAttempts, h0]
  rw [if_neg hnr]

/-- Equation for `createAttempts` when the first creation fails with
image-not-found under a non-`Never` policy but the recovery pull fails: the
pull error is final and no second creation is attempted. -/
theorem createAttempts_pull_fail (cl : APIClient) (step : Step)
    (pullopts : ImagePullOptions) (pullIdx : Nat) (tr : List Call)
    (e pe : DockerErr) (h0 : cl.ContainerCreate 0 step.ID = some e)
    (hin : IsErrImageNotFound (some e) = true)
    (hnn : step.Pull ≠ PullPolicy.PullNever)
    (hp : cl.ImagePull pullIdx step.Image pullopts = some pe) :
    createAttempts cl step pullopts pullIdx tr =
      (tr ++ [Call.containerCreate step.ID, Call.imagePull step.Image pullopts],
       some pe) := by
  simp only [createAttempts, h0]
  rw [if_pos ⟨hin, hnn⟩, hp]
  simp

/-- Equation for `createAttempts` on the retry path: first creation fails
with image-not-found under a non-`Never` policy, the recovery pull succeeds,
and the outcome is whatever the single second creation attempt returns. -/
theorem createAttempts_retry (cl : APIClient) (step : Step)
    (pullopts : ImagePullOptions) (pullIdx : Nat) (tr : List Call)
    (e : DockerErr) (h0 : cl.ContainerCreate 0 step.ID = some e)
    (hin : IsErrImageNotFound (some e) = true)
    (hnn : step.Pull ≠ PullPolicy.PullNever)
    (hp : cl.ImagePull pullIdx step.Image pullopts = none) :
    createAttempts cl step pullopts pullIdx tr =
      (tr ++ [Call.containerCreate step.ID, Call.imagePull step.Image pullopts,
        Call.containerCreate step.ID],
       cl.ContainerCreate 1 step.ID) := by
  simp only [createAttempts, h0]
  rw [if_pos ⟨hin, hnn⟩, hp]
  simp

/-- Whatever the client does, the calls of `createAttempts` extend the
incoming trace with a first creation attempt. -/
theorem createAttempts_trace_shape (cl : APIClient) (step : Step)
    (pullopts : ImagePullOptions) (pullIdx : Nat) (tr : List Call) :
    ∃ rest, (createAttempts cl step pullopts pullIdx tr).1 =
      tr ++ Call.containerCreate step.ID :: rest := by
  rcases h0 : cl.ContainerCreate 0 step.ID with _ | e
  · rw [createAttempts_ok cl step pullopts pullIdx tr h0]
    exact ⟨[], by simp⟩
  · by_cases hc : IsErrImageNotFound (some e) = true ∧
      step.Pull ≠ PullPolicy.PullNever
    · rcases hp : cl.ImagePull pullIdx step.Image pullopts with _ | pe
      · rw [createAttempts_retry cl step pullopts pullIdx tr e h0 hc.1 hc.2 hp]
        exact ⟨[Call.imagePull step.Image pullopts, Call.containerCreate step.ID],
          by simp⟩
      · rw [createAttempts_pull_fail cl step pullopts pullIdx tr e pe h0 hc.1 hc.2 hp]
        exact ⟨[Call.imagePull step.Image pullopts], by simp⟩
    · rw [createAttempts_fail_final cl step pullopts pullIdx tr e h0 hc]
      exact ⟨[], by simp⟩

/-- Equation for `create` on a malformed image reference. -/
theorem create_parse_err (cl : APIClient) (spec : Spec) (step : Step)
    (e : DockerErr) (hp : parseImage step.Image = Except.error e) :
    create cl spec step = ([], some e) := by
  simp only [create, hp]

/-- Equation for `create` when the proactive-pull condition holds and the
proactive pull fails: that error aborts before any creation attempt. -/
theorem create_proactive_fail (cl : APIClient) (spec : Spec) (step : Step)
    (parsed : String × String × Bool) (pe : DockerErr)
    (hp : parseImage step.Image = Except.ok parsed)
    (hb : pullBeforeCreate step parsed.2.2 = true)
    (hpull : cl.ImagePull 0 step.Image (pullOptsOf step) = some pe) :
    create cl spec step = ([Call.imagePull step.Image (pullOptsOf step)], some pe) := by
  simp only [create, hp, hb, if_true, hpull]

/-- Equation for `create` when the proactive-pull condition holds and the
proactive pull succeeds: the creation attempts run after the recorded pull,
with one pull already made. -/
theorem create_proactive_ok (cl : APIClient) (spec : Spec) (step : Step)
    (parsed : String × String × Bool)
    (hp : parseImage step.Image = Except.ok parsed)
    (hb : pullBeforeCreate step parsed.2.2 = true)
    (hpull : cl.ImagePull 0 step.Image (pullOptsOf step) = none) :
    create cl spec step = createAttempts cl step (pullOptsOf step) 1
      [Call.imagePull step.Image (pullOptsOf step)] := by
  simp only [create, hp, hb, if_true, hpull]

/-- Equation for `create` when the proactive-pull condition does not hold:
the creation attempts run first, with no pull made yet. -/
theorem create_no_proactive (cl : APIClient) (spec : Spec) (step : Step)
    (parsed : String × String × Bool)
    (hp : parseImage step.Image = Except.ok parsed)
    (hb : pullBeforeCreate step parsed.2.2 = false) :
    create cl spec step = createAttempts cl step (pullOptsOf step) 0 [] := by
  simp only [create, hp, hb, Bool.false_eq_true, if_false]

/-- C2: `create` issues a proactive image pull before the first
container-creation attempt — the trace then starts with that pull — if and
only if the step's pull policy is `Always`, or the policy is `Default` and
the resolved tag is latest (an absent tag resolves to latest); and a failure
of this proactive pull aborts `create` with that error before any creation
attempt is made. -/
theorem create_proactive_pull (cl : APIClient) (spec : Spec) (step : Step)
    (d n : String) (latest : Bool)
    (hp : parseImage step.Image = Except.ok (d, n, latest)) :
    ((create cl spec step).1.head? =
        some (Call.imagePull step.Image (pullOptsOf step)) ↔
      (step.Pull = PullPolicy.PullAlways ∨
        (step.Pull = PullPolicy.PullDefault ∧ latest = true))) ∧
    (∀ pe, (step.Pull = PullPolicy.PullAlways ∨
        (step.Pull = PullPolicy.PullDefault ∧ latest = true)) →
      cl.ImagePull 0 step.Image (pullOptsOf step) = some pe →
      create cl spec step =
        ([Call.imagePull step.Image (pullOptsOf step)], some pe)) := by
  cases hb : pullBeforeCreate step latest with
  | false =>
    have hcond : ¬(step.Pull = PullPolicy.PullAlways ∨
        (step.Pull = PullPolicy.PullDefault ∧ latest = true)) := by
      rw [← pullBeforeCreate_iff]
      simp [hb]
    have hc := create_no_proactive cl spec step (d, n, latest) hp hb
    constructor
    · rw [hc]
      obtain ⟨rest, hrest⟩ :=
        createAttempts_trace_shape cl step (pullOptsOf step) 0 []
      rw [hrest]
      simp [hcond]
    · intro pe hcondP
      exact absurd hcondP hcond
  | true =>
    have hcondP : step.Pull = PullPolicy.PullAlways ∨
        (step.Pull = PullPolicy.PullDefault ∧ latest = true) :=
      (pullBeforeCreate_iff step latest).1 hb
    constructor
    · rcases hpull : cl.ImagePull 0 step.Image (pullOptsOf step) with _ | pe
      · rw [create_proactive_ok cl spec step (d, n, latest) hp hb hpull]
        obtain ⟨rest, hrest⟩ := createAttempts_trace_shape cl step
          (pullOptsOf step) 1 [Call.imagePull step.Image (pullOptsOf step)]
        rw [hrest]
        simp [hcondP]
      · rw [create_proactive_fail cl spec step (d, n, latest) pe hp hb hpull]
        simp [hcondP]
    · intro pe hcond hpull
      exact create_proactive_fail cl spec step (d, n, latest) pe hp hb hpull

/-- A step with policy `Default` whose image carries no tag, so the tag
resolves to latest. -/
def stepLatest : Step :=
  { ID := "s1", Image := "app", Auth := none, Pull := PullPolicy.PullDefault }

/-- Witness for C2: with policy `Default` and the untagged image `"app"`,
the first call of `create` is the proactive pull. -/
theorem create_proactive_pull_witness :
    (create okClient twoVolSpec stepLatest).1.head? =
      some (Call.imagePull stepLatest.Image (pullOptsOf stepLatest)) :=
  (create_proactive_pull okClient twoVolSpec stepLatest "app" "latest" true
    rfl).1.mpr (Or.inr ⟨rfl, rfl⟩)

/-- C1: container creation in `create` is attempted at most twice; a second
attempt happens only when the first fails with image-not-found under a
policy other than `Never`, is immediately preceded by an image pull, and its
outcome — in particular a second failure — is returned as final; and when
the recovery pull itself fails, `create` aborts with the pull error after a
single creation attempt. -/
theorem create_retry_once (cl : APIClient) (spec : Spec) (step : Step) :
    countCreates (create cl spec step).1 ≤ 2 ∧
    (countCreates (create cl spec step).1 = 2 →
      ∃ e, cl.ContainerCreate 0 step.ID = some e ∧
        IsErrImageNotFound (some e) = true ∧
        step.Pull ≠ PullPolicy.PullNever ∧
        (create cl spec step).2 = cl.ContainerCreate 1 step.ID ∧
        ∃ tr0, countCreates tr0 = 0 ∧
          (create cl spec step).1 = tr0 ++ [Call.containerCreate step.ID,
            Call.imagePull step.Image (pullOptsOf step),
            Call.containerCreate step.ID]) ∧
    (∀ d n latest, parseImage step.Image = Except.ok (d, n, latest) →
      (pullBeforeCreate step latest = true →
        cl.ImagePull 0 step.Image (pullOptsOf step) = none) →
      ∀ e, cl.ContainerCreate 0 step.ID = some e →
        IsErrImageNotFound (some e) = true →
        step.Pull ≠ PullPolicy.PullNever →
        ∀ pe, cl.ImagePull (if pullBeforeCreate step latest then 1 else 0)
            step.Image (pullOptsOf step) = some pe →
          (create cl spec step).2 = some pe ∧
          countCreates (create cl spec step).1 = 1) := by
  rcases hparse : parseImage step.Image with e0 | ⟨pd, pt, pl⟩
  · have hc := create_parse_err cl spec step e0 hparse
    refine ⟨?_, ?_, ?_⟩
    · rw [hc]
      simp [countCreates]
    · rw [hc]
      intro h2
      simp [countCreates] at h2
    · intro d n latest hp'
      simp at hp'
  · cases hb : pullBeforeCreate step pl with
    | false =>
      have hc0 := create_no_proactive cl spec step (pd, pt, pl) hparse hb
      rcases h0 : cl.ContainerCreate 0 step.ID with _ | e1
      · have hc : create cl spec step = ([Call.containerCreate step.ID], none) := by
          rw [hc0, createAttempts_ok cl step (pullOptsOf step) 0 [] h0]
          simp
        refine ⟨?_, ?_, ?_⟩
        · rw [hc]
          simp [countCreates, isCreateCall]
        · rw [hc]
          intro h2
          simp [countCreates, isCreateCall] at h2
        · intro d n latest hp' hpre e he
          exact Option.noConfusion he
      · by_cases hcnd : IsErrImageNotFound (some e1) = true ∧
          step.Pull ≠ PullPolicy.PullNever
        · rcases hpl : cl.ImagePull 0 step.Image (pullOptsOf step) with _ | pe1
          · have hc : create cl spec step =
                ([Call.containerCreate step.ID,
                  Call.imagePull step.Image (pullOptsOf step),
                  Call.containerCreate step.ID], cl.ContainerCreate 1 step.ID) := by
              rw [hc0, createAttempts_retry cl step (pullOptsOf step) 0 []
                e1 h0 hcnd.1 hcnd.2 hpl]
              simp
            refine ⟨?_, ?_, ?_⟩
            · rw [hc]
              simp [countCreates, isCreateCall]
            · intro _
              refine ⟨e1, rfl, hcnd.1, hcnd.2, by simp [hc], [], by simp [countCreates], ?_⟩
              rw [hc]
              simp
            · intro d n latest hp' hpre e he hin hnn pe hplC
              simp only [Except.ok.injEq, Prod.mk.injEq] at hp'
              obtain ⟨rfl, rfl, rfl⟩ := hp'
              simp [hb] at hplC
              rw [hpl] at hplC
              exact Option.noConfusion hplC
          · have hc : create cl spec step =
                ([Call.containerCreate step.ID,
                  Call.imagePull step.Image (pullOptsOf step)], some pe1) := by
              rw [hc0, createAttempts_pull_fail cl step (pullOptsOf step) 0 []
                e1 pe1 h0 hcnd.1 hcnd.2 hpl]
              simp
            refine ⟨?_, ?_, ?_⟩
            · rw [hc]
              simp [countCreates, isCreateCall]
            · rw [hc]
              intro h2
              simp [countCreates, isCreateCall] at h2
            · intro d n latest hp' hpre e he hin hnn pe hplC
              simp only [Except.ok.injEq, Prod.mk.injEq] at hp'
              obtain ⟨rfl, rfl, rfl⟩ := hp'
              simp [hb] at hplC
              rw [hpl] at hplC
              obtain rfl : pe1 = pe := by simpa using hplC
              rw [hc]
              exact ⟨rfl, by simp [countCreates, isCreateCall]⟩
        · have hc : create cl spec step =
              ([Call.containerCreate step.ID], some e1) := by
            rw [hc0, createAttempts_fail_final cl step (pullOptsOf step) 0 []
              e1 h0 hcnd]
            simp
          refine ⟨?_, ?_, ?_⟩
          · rw [hc]
            simp [countCreates, isCreateCall]
          · rw [hc]
            intro h2
            simp [countCreates, isCreateCall] at h2
          · intro d n latest hp' hpre e he hin hnn pe hplC
            obtain rfl : e1 = e := by simpa using he
            exact absurd ⟨hin, hnn⟩ hcnd
    | true =>
      rcases hpl0 : cl.ImagePull 0 step.Image (pullOptsOf step) with _ | pe0
      · have hc0 := create_proactive_ok cl spec step (pd, pt, pl) hparse hb hpl0
        rcases h0 : cl.ContainerCreate 0 step.ID with _ | e1
        · have hc : create cl spec step =
              ([Call.imagePull step.Image (pullOptsOf step),
                Call.containerCreate step.ID], none) := by
            rw [hc0, createAttempts_ok cl step (pullOptsOf step) 1 _ h0]
            simp
          refine ⟨?_, ?_, ?_⟩
          · rw [hc]
            simp [countCreates, isCreateCall]
          · rw [hc]
            intro h2
            simp [countCreates, isCreateCall] at h2
          · intro d n latest hp' hpre e he
            exact Option.noConfusion he
        · by_cases hcnd : IsErrImageNotFound (some e1) = true ∧
            step.Pull ≠ PullPolicy.PullNever
          · rcases hpl : cl.ImagePull 1 step.Image (pullOptsOf step) with _ | pe1
            · have hc : create cl spec step =
                  ([Call.imagePull step.Image (pullOptsOf step),
                    Call.containerCreate step.ID,
                    Call.imagePull step.Image (pullOptsOf step),
                    Call.containerCreate step.ID],
                   cl.ContainerCreate 1 step.ID) := by
                rw [hc0, createAttempts_retry cl step (pullOptsOf step) 1 _
                  e1 h0 hcnd.1 hcnd.2 hpl]
                simp
              refine ⟨?_, ?_, ?_⟩
              · rw [hc]
                simp [countCreates, isCreateCall]
              · intro _
                refine ⟨e1, rfl, hcnd.1, hcnd.2, by simp [hc],
                  [Call.imagePull step.Image (pullOptsOf step)],
                  by simp [countCreates, isCreateCall], ?_⟩
                rw [hc]
                simp
              · intro d n latest hp' hpre e he hin hnn pe hplC
                simp only [Except.ok.injEq, Prod.mk.injEq] at hp'
                obtain ⟨rfl, rfl, rfl⟩ := hp'
                simp [hb] at hplC
                rw [hpl] at hplC
                exact Option.noConfusion hplC
            · have hc : create cl spec step =
                  ([Call.imagePull step.Image (pullOptsOf step),
                    Call.containerCreate step.ID,
                    Call.imagePull step.Image (pullOptsOf step)], some pe1) := by
                rw [hc0, createAttempts_pull_fail cl step (pullOptsOf step) 1 _
                  e1 pe1 h0 hcnd.1 hcnd.2 hpl]
                simp
              refine ⟨?_, ?_, ?_⟩
              · rw [hc]
                simp [countCreates, isCreateCall]
              · rw [hc]
                intro h2
                simp [countCreates, isCreateCall] at h2
              · intro d n latest hp' hpre e he hin hnn pe hplC
                simp only [Except.ok.injEq, Prod.mk.injEq] at hp'
                obtain ⟨rfl, rfl, rfl⟩ := hp'
                simp [hb] at hplC
                rw [hpl] at hplC
                obtain rfl : pe1 = pe := by simpa using hplC
                rw [hc]
                exact ⟨rfl, by simp [countCreates, isCreateCall]⟩
          · have hc : create cl spec step =
                ([Call.imagePull step.Image (pullOptsOf step),
                  Call.containerCreate step.ID], some e1) := by
              rw [hc0, createAttempts_fail_final cl step (pullOptsOf step) 1 _
                e1 h0 hcnd]
              simp
            refine ⟨?_, ?_, ?_⟩
            · rw [hc]
              simp [countCreates, isCreateCall]
            · rw [hc]
              intro h2
              simp [countCreates, isCreateCall] at h2
            · intro d n latest hp' hpre e he hin hnn pe hplC
              obtain rfl : e1 = e := by simpa using he
              exact absurd ⟨hin, hnn⟩ hcnd
      · have hc := create_proactive_fail cl spec step (pd, pt, pl) pe0 hparse hb hpl0
        refine ⟨?_, ?_, ?_⟩
        · rw [hc]
          simp [countCreates, isCreateCall]
        · rw [hc]
          intro h2
          simp [countCreates, isCreateCall] at h2
        · intro d n latest hp' hpre e he hin hnn pe hplC
          simp only [Except.ok.injEq, Prod.mk.injEq] at hp'
          obtain ⟨rfl, rfl, rfl⟩ := hp'
          exact Option.noConfusion (hpre hb)

/-- Creation responses for `retryFailClient`: the first attempt fails with
image-not-found, every later attempt with error code 3. -/
def retryFailCreate (attempt : Nat) (_ : String) : Option DockerErr :=
  if attempt = 0 then some DockerErr.imageNotFound
  else some (DockerErr.errCode 3)

/-- A client whose first container creation fails with image-not-found and
whose second fails with error code 3; pulls succeed. -/
def retryFailClient : APIClient :=
  { okClient with ContainerCreate := retryFailCreate }

/-- A step with policy `Default` and a pinned non-latest tag. -/
def stepPinned : Step :=
  { ID := "s2", Image := "app:1.4.0", Auth := none, Pull := PullPolicy.PullDefault }

/-- Witness for C1 on the retry path: both creation attempts fail, the trace
is create–pull–create with exactly two attempts, and the second failure
(error code 3) is returned as final. -/
theorem create_retry_once_witness :
    ∃ e, retryFailClient.ContainerCreate 0 stepPinned.ID = some e ∧
      IsErrImageNotFound (some e) = true ∧
      stepPinned.Pull ≠ PullPolicy.PullNever ∧
      (create retryFailClient twoVolSpec stepPinned).2 =
        retryFailClient.ContainerCreate 1 stepPinned.ID ∧
      ∃ tr0, countCreates tr0 = 0 ∧
        (create retryFailClient twoVolSpec stepPinned).1 = tr0 ++
          [Call.containerCreate stepPinned.ID,
           Call.imagePull stepPinned.Image (pullOptsOf stepPinned),
           Call.containerCreate stepPinned.ID] :=
  (create_retry_once retryFailClient twoVolSpec stepPinned).2.1 (by rfl)

/-- Whatever the inspection returns, `wait` issues exactly one
`ContainerWait` followed by one `ContainerInspect`. -/
theorem wait_trace (cl : APIClient) (id : String) :
    (wait cl id).1 = [Call.containerWait id, Call.containerInspect id] := by
  rcases hi : cl.ContainerInspect id with e | info <;> simp [wait, hi]

/-- C9: `Run` drives the four stages in the strict order create, start,
tail, wait; a failing stage makes `Run` return that stage's error with no
`State` and no later-stage calls, and an `ok` result implies the first
three stages all succeeded. -/
theorem run_sequencing (cl : APIClient) (spec : Spec) (step : Step) :
    (∀ e, (create cl spec step).2 = some e →
      Run cl spec step = ((create cl spec step).1, Except.error e)) ∧
    (∀ e, (create cl spec step).2 = none → cl.ContainerStart step.ID = some e →
      Run cl spec step =
        ((create cl spec step).1 ++ [Call.containerStart step.ID],
         Except.error e)) ∧
    (∀ e, (create cl spec step).2 = none → cl.ContainerStart step.ID = none →
      cl.ContainerLogs step.ID tailLogsOptions = some e →
      Run cl spec step =
        ((create cl spec step).1 ++ [Call.containerStart step.ID] ++
          [Call.containerLogs step.ID tailLogsOptions], Except.error e)) ∧
    ((create cl spec step).2 = none → cl.ContainerStart step.ID = none →
      cl.ContainerLogs step.ID tailLogsOptions = none →
      Run cl spec step =
        ((create cl spec step).1 ++ [Call.containerStart step.ID] ++
          [Call.containerLogs step.ID tailLogsOptions] ++
          [Call.containerWait step.ID, Call.containerInspect step.ID],
         (wait cl step.ID).2)) ∧
    (∀ st, (Run cl spec step).2 = Except.ok st →
      (create cl spec step).2 = none ∧ cl.ContainerStart step.ID = none ∧
        cl.ContainerLogs step.ID tailLogsOptions = none) := by
  rcases hcr : create cl spec step with ⟨ctr, cres⟩
  rcases cres with _ | e0
  · rcases hst : cl.ContainerStart step.ID with _ | es
    · rcases hlg : cl.ContainerLogs step.ID tailLogsOptions with _ | el
      · have hrun : Run cl spec step =
            (ctr ++ [Call.containerStart step.ID] ++
              [Call.containerLogs step.ID tailLogsOptions] ++
              [Call.containerWait step.ID, Call.containerInspect step.ID],
             (wait cl step.ID).2) := by
          simp [Run, hcr, start, tail, hst, hlg, wait_trace]
        refine ⟨?_, ?_, ?_, ?_, ?_⟩
        · intro e he
          simp at he
        · intro e hn hs
          simp at hs
        · intro e hn hs hl
          simp at hl
        · intro _ _ _
          rw [hrun]
        · intro st hok
          simp
      · have hrun : Run cl spec step =
            (ctr ++ [Call.containerStart step.ID] ++
              [Call.containerLogs step.ID tailLogsOptions], Except.error el) := by
          simp [Run, hcr, start, tail, hst, hlg]
        refine ⟨?_, ?_, ?_, ?_, ?_⟩
        · intro e he
          simp at he
        · intro e hn hs
          simp at hs
        · intro e hn hs hl
          obtain rfl : el = e := by simpa using hl
          rw [hrun]
        · intro _ _ hl
          simp at hl
        · intro st hok
          rw [hrun] at hok
          simp at hok
    · have hrun : Run cl spec step =
          (ctr ++ [Call.containerStart step.ID], Except.error es) := by
        simp [Run, hcr, start, hst]
      refine ⟨?_, ?_, ?_, ?_, ?_⟩
      · intro e he
        simp at he
      · intro e hn hs
        obtain rfl : es = e := by simpa using hs
        rw [hrun]
      · intro e hn hs hl
        simp at hs
      · intro _ hs _
        simp at hs
      · intro st hok
        rw [hrun] at hok
        simp at hok
  · have hrun : Run cl spec step = (ctr, Except.error e0) := by
      simp [Run, hcr]
    refine ⟨?_, ?_, ?_, ?_, ?_⟩
    · intro e he
      obtain rfl : e0 = e := by simpa using he
      rw [hrun]
    · intro e hn
      simp at hn
    · intro e hn
      simp at hn
    · intro hn
      simp at hn
    · intro st hok
      rw [hrun] at hok
      simp at hok

/-- Witness for C9 on an all-success client: `Run` performs create, start,
tail, wait in order and returns the wait result. -/
theorem run_sequencing_witness :
    Run okClient twoVolSpec stepPinned =
      ((create okClient twoVolSpec stepPinned).1 ++
        [Call.containerStart stepPinned.ID] ++
        [Call.containerLogs stepPinned.ID tailLogsOptions] ++
        [Call.containerWait stepPinned.ID, Call.containerInspect stepPinned.ID],
       (wait okClient stepPinned.ID).2) :=
  (run_sequencing okClient twoVolSpec stepPinned).2.2.2.1 rfl rfl rfl

end Engine
